import Mathlib

/-!
Verification development for the Siigo MCP server's API client
(`src/siigo-client.ts`).  The definitions below are shallow embeddings of
the client's pure request-shaping and response-filtering logic; stateful
token caching is embedded as explicit state passing over `ClientState`.
Only the fields that the client logic actually reads are modelled on the
resource records; all remaining upstream fields ride along opaquely and
are never touched by the client.
-/

namespace Siigo

/-- Character-list version of JavaScript `String.prototype.startsWith`:
`charsStartsWith s sub` is `true` when `sub` is an initial segment of `s`. -/
def charsStartsWith : List Char → List Char → Bool
  | _, [] => true
  | [], _ :: _ => false
  | a :: as, b :: bs => a == b && charsStartsWith as bs

/-- Character-list version of JavaScript `String.prototype.includes`:
`charsContains s sub` is `true` when `sub` occurs contiguously in `s`. -/
def charsContains : List Char → List Char → Bool
  | [], sub => charsStartsWith [] sub
  | a :: rest, sub => charsStartsWith (a :: rest) sub || charsContains rest sub

/-- JavaScript `s.includes(sub)` on strings. -/
def strIncludes (s sub : String) : Bool :=
  charsContains s.toList sub.toList

/-- JavaScript `s.toLowerCase()` (ASCII case folding, character by
character). -/
def strLower (s : String) : String :=
  ⟨s.toList.map Char.toLower⟩

/-- JavaScript truthiness of an optional string value (`undefined`, `null`
and the empty string are falsy). -/
def optStrActive : Option String → Bool
  | none => false
  | some s => !(s == "")

/-- JavaScript truthiness of an optional numeric value (`undefined` and `0`
are falsy). -/
def optNatActive : Option Nat → Bool
  | none => false
  | some n => !(n == 0)

/-- Pagination metadata of the upstream response envelope
(`SiigoPagination` in `types.ts`). -/
structure SiigoPagination where
  page : Nat
  page_size : Nat
  total_results : Nat
deriving DecidableEq

/-- One structured upstream error (element of the envelope's `errors`
list in `types.ts`). -/
structure SiigoApiError where
  Code : String
  Message : String
  Params : Option (List String) := none
  Detail : Option String := none
deriving DecidableEq

/-- The generic response envelope (`SiigoApiResponse<T>` in `types.ts`).
The `_links` record is modelled as an association list named `links`. -/
structure SiigoApiResponse (α : Type) where
  data : Option α := none
  pagination : Option SiigoPagination := none
  results : Option (List α) := none
  links : Option (List (String × String)) := none
  errors : Option (List SiigoApiError) := none
  Status : Option Nat := none
deriving DecidableEq

/-- The product fields read by `searchProducts`; every field is optional
here because the client accesses them with optional chaining
(`product.code?.toLowerCase()` and so on). -/
structure SiigoProduct where
  id : Option String := none
  code : Option String := none
  name : Option String := none
  reference : Option String := none
deriving DecidableEq

/-- The customer fields read by `searchCustomers`.  `name` is an optional
list of name parts and `commercial_name` an optional string, matching the
runtime truthiness checks `if (customer.name)` and
`if (customer.commercial_name)` in the source. -/
structure SiigoCustomer where
  id : Option String := none
  identification : Option String := none
  name : Option (List String) := none
  commercial_name : Option String := none
deriving DecidableEq

/-- Arguments of `searchProducts` (all optional). -/
structure ProductSearchParams where
  code : Option String := none
  name : Option String := none
  reference : Option String := none
  page : Option Nat := none
  page_size : Option Nat := none
deriving DecidableEq

/-- Arguments of `searchCustomers` (all optional). -/
structure CustomerSearchParams where
  identification : Option String := none
  name : Option String := none
  type : Option String := none
  page : Option Nat := none
  page_size : Option Nat := none
deriving DecidableEq

/-- Predicate applied by `searchProducts` for the `code` filter:
`product.code?.toLowerCase().includes(searchCode)` with a falsy result
when `code` is absent. -/
def productCodeMatches (searchCode : String) (p : SiigoProduct) : Bool :=
  match p.code with
  | some c => strIncludes (strLower c) searchCode
  | none => false

/-- Predicate applied by `searchProducts` for the `name` filter. -/
def productNameMatches (searchName : String) (p : SiigoProduct) : Bool :=
  match p.name with
  | some n => strIncludes (strLower n) searchName
  | none => false

/-- Predicate applied by `searchProducts` for the `reference` filter. -/
def productRefMatches (searchRef : String) (p : SiigoProduct) : Bool :=
  match p.reference with
  | some r => strIncludes (strLower r) searchRef
  | none => false

/-- Predicate applied by `searchCustomers` for the `identification`
filter: `customer.identification?.toLowerCase().includes(searchId)`. -/
def customerIdMatches (searchId : String) (c : SiigoCustomer) : Bool :=
  match c.identification with
  | some idv => strIncludes (strLower idv) searchId
  | none => false

/-- Predicate applied by `searchCustomers` for the `name` filter.  The
source first tests `if (customer.name)` and, only when that field is
absent, falls through to `if (customer.commercial_name)`; an absent or
empty commercial name yields `false`. -/
def customerNameMatches (searchName : String) (c : SiigoCustomer) : Bool :=
  match c.name with
  | some parts => parts.any (fun nameElement => strIncludes (strLower nameElement) searchName)
  | none =>
    match c.commercial_name with
    | some cn => if cn == "" then false else strIncludes (strLower cn) searchName
    | none => false

/-- Successive narrowing of the fetched product list by the active text
filters (`filteredResults` in lines 133-155 of `siigo-client.ts`): each
active filter narrows the previous result in turn. -/
def applyProductFilters (sp : ProductSearchParams) (results : List SiigoProduct) :
    List SiigoProduct :=
  let f1 := if optStrActive sp.code then
      results.filter (productCodeMatches (strLower (sp.code.getD ""))) else results
  let f2 := if optStrActive sp.name then
      f1.filter (productNameMatches (strLower (sp.name.getD ""))) else f1
  if optStrActive sp.reference then
    f2.filter (productRefMatches (strLower (sp.reference.getD ""))) else f2

/-- Client-side filtering stage of `searchProducts` applied to the whole
envelope: with no active text filter, or with no `results` list, the
response is returned unchanged; otherwise the filtered results replace the
fetched ones and `pagination.total_results` is recomputed. -/
def searchProducts (sp : ProductSearchParams) (response : SiigoApiResponse SiigoProduct) :
    SiigoApiResponse SiigoProduct :=
  if !(optStrActive sp.code) && !(optStrActive sp.name) && !(optStrActive sp.reference) then
    response
  else
    match response.results with
    | some results =>
      { response with
        results := some (applyProductFilters sp results),
        pagination := response.pagination.map
          (fun p => { p with total_results := (applyProductFilters sp results).length }) }
    | none => response

/-- Successive narrowing of the fetched customer list by the active text
filters (`filteredResults` in lines 220-243 of `siigo-client.ts`). -/
def applyCustomerFilters (sp : CustomerSearchParams) (results : List SiigoCustomer) :
    List SiigoCustomer :=
  let f1 := if optStrActive sp.identification then
      results.filter (customerIdMatches (strLower (sp.identification.getD ""))) else results
  if optStrActive sp.name then
    f1.filter (customerNameMatches (strLower (sp.name.getD ""))) else f1

/-- Client-side filtering stage of `searchCustomers`, applied to the
envelope fetched from `GET /v1/customers`.  Mirrors lines 216-254 of
`siigo-client.ts`. -/
def searchCustomers (sp : CustomerSearchParams) (response : SiigoApiResponse SiigoCustomer) :
    SiigoApiResponse SiigoCustomer :=
  if !(optStrActive sp.identification) && !(optStrActive sp.name) then
    response
  else
    match response.results with
    | some results =>
      { response with
        results := some (applyCustomerFilters sp results),
        pagination := response.pagination.map
          (fun p => { p with total_results := (applyCustomerFilters sp results).length }) }
    | none => response

/-- Server-side query parameters forwarded by `searchProducts`: `page` and
`page_size` are forwarded only when truthy (nonzero); text filters are
never forwarded. -/
def productQueryParams (sp : ProductSearchParams) : List (String × String) :=
  (if optNatActive sp.page then [("page", toString (sp.page.getD 0))] else []) ++
  (if optNatActive sp.page_size then [("page_size", toString (sp.page_size.getD 0))] else [])

/-- Server-side query parameters forwarded by `searchCustomers`: `page`,
`page_size` and `type`, each only when truthy. -/
def customerQueryParams (sp : CustomerSearchParams) : List (String × String) :=
  (if optNatActive sp.page then [("page", toString (sp.page.getD 0))] else []) ++
  (if optNatActive sp.page_size then [("page_size", toString (sp.page_size.getD 0))] else []) ++
  (if optStrActive sp.type then [("type", sp.type.getD "")] else [])

/-- Shape of one call into the generic `makeRequest` helper. -/
structure RequestSpec (β : Type) where
  method : String
  endpoint : String
  data : Option β := none
  params : List (String × String) := []
deriving DecidableEq

/-- The HTTP request issued by `searchProducts` before filtering. -/
def searchProductsRequest (sp : ProductSearchParams) : RequestSpec Unit :=
  { method := "GET", endpoint := "/v1/products", data := none, params := productQueryParams sp }

/-- The HTTP request issued by `searchCustomers` before filtering. -/
def searchCustomersRequest (sp : CustomerSearchParams) : RequestSpec Unit :=
  { method := "GET", endpoint := "/v1/customers", data := none, params := customerQueryParams sp }

/-- Trial-balance report parameters (`SiigoTrialBalanceParams`). -/
structure SiigoTrialBalanceParams where
  account_start : Option String := none
  account_end : Option String := none
  year : Nat
  month_start : Nat
  month_end : Nat
  includes_tax_difference : Bool
deriving DecidableEq

/-- Customer reference used by the by-third-party report parameters. -/
structure SiigoCustomerRef where
  identification : String
  branch_office : Option Nat := none
deriving DecidableEq

/-- Trial-balance-by-third-party report parameters
(`SiigoTrialBalanceByThirdParams`). -/
structure SiigoTrialBalanceByThirdParams where
  account_start : Option String := none
  account_end : Option String := none
  year : Nat
  month_start : Nat
  month_end : Nat
  includes_tax_difference : Bool
  customer : Option SiigoCustomerRef := none
deriving DecidableEq

/-- The request issued by `getTrialBalance`: a POST whose JSON body is the
supplied parameter object. -/
def getTrialBalance (p : SiigoTrialBalanceParams) : RequestSpec SiigoTrialBalanceParams :=
  { method := "POST", endpoint := "/v1/test-balance-report", data := some p }

/-- The request issued by `getTrialBalanceByThird`. -/
def getTrialBalanceByThird (p : SiigoTrialBalanceByThirdParams) :
    RequestSpec SiigoTrialBalanceByThirdParams :=
  { method := "POST", endpoint := "/v1/test-balance-report-by-thirdparty", data := some p }

/-- Upstream token-exchange response (`SiigoToken` in `types.ts`);
`expires_in` is a lifetime in seconds. -/
structure SiigoToken where
  access_token : String
  expires_in : Nat
  token_type : String := "bearer"
  scope : String := ""
deriving DecidableEq

/-- The mutable token cache of `SiigoClient` (`token` and `tokenExpiry`
fields).  Time is modelled as milliseconds since the epoch, matching
`Date.now()`; `tokenExpiry` records an absolute instant. -/
structure ClientState where
  token : Option String
  tokenExpiry : Option Nat
deriving DecidableEq

/-- The state of a freshly constructed client: no cached token. -/
def initialClientState : ClientState := { token := none, tokenExpiry := none }

/-- The guard of `authenticate`:
`this.token && this.tokenExpiry && new Date() < this.tokenExpiry`.
JavaScript truthiness makes an empty token string falsy; a `Date` object
is always truthy, so only null-ness of `tokenExpiry` matters. -/
def cachedTokenValid (now : Nat) (st : ClientState) : Bool :=
  match st.token, st.tokenExpiry with
  | some t, some e => !(t == "") && decide (now < e)
  | _, _ => false

/-- One step of `authenticate` at instant `now`, given the token-exchange
response the upstream would return.  Returns the new cache state and
whether a credential-exchange call was issued.  On exchange the expiry is
recorded as `now + expires_in * 1000`, matching
`new Date(Date.now() + response.data.expires_in * 1000)`. -/
def authenticate (now : Nat) (resp : SiigoToken) (st : ClientState) : ClientState × Bool :=
  if cachedTokenValid now st then (st, false)
  else ({ token := some resp.access_token,
          tokenExpiry := some (now + resp.expires_in * 1000) }, true)

/-- Observable upstream calls made by one `makeRequest` invocation. -/
inductive ApiCall where
  | authExchange
  | resource (method : String) (endpoint : String)
deriving DecidableEq

/-- The sequence of upstream calls issued by one `makeRequest` invocation
at instant `now`: `authenticate` runs first and issues at most one
credential exchange, then the resource call itself is issued. -/
def makeRequestCalls (now : Nat) (resp : SiigoToken) (st : ClientState)
    (method endpoint : String) : ClientState × List ApiCall :=
  let auth := authenticate now resp st
  (auth.1, (if auth.2 then [ApiCall.authExchange] else []) ++ [ApiCall.resource method endpoint])

/-- One client operation in a trace: the instant it runs, the
token-exchange response upstream would give if asked, and the resource
call it performs. -/
structure OperationStep where
  now : Nat
  tokenResp : SiigoToken
  method : String
  endpoint : String
deriving DecidableEq

/-- Record of the bearer credential attached to one outgoing resource
request: the instant of the request, the recorded expiry of the attached
credential, and whether the credential was reused from the cache (as
opposed to freshly exchanged). -/
structure BearerAttachment where
  now : Nat
  expiry : Nat
  reusedCache : Bool
deriving DecidableEq

/-- Run a list of operations against the shared token cache, recording
for each outgoing resource request the bearer credential attached to it.
After `authenticate` the cache always holds a token and expiry; the
attached credential is exactly the cached one. -/
def runOperations : ClientState → List OperationStep → List BearerAttachment
  | _, [] => []
  | st, s :: rest =>
    let auth := authenticate s.now s.tokenResp st
    { now := s.now, expiry := auth.1.tokenExpiry.getD 0, reusedCache := !auth.2 } ::
      runOperations auth.1 rest

/-- Outcome of the underlying HTTP call inside `makeRequest`:
a 2xx response, a non-2xx response whose axios error carries a (truthy)
response body, or a transport-level failure with no response body. -/
inductive HttpOutcome (α : Type) where
  | success (body : α)
  | httpErrorWithBody (body : α)
  | transportFailure (message : String)
deriving DecidableEq

/-- The try/catch of `makeRequest` (lines 75-90 of `siigo-client.ts`):
a 2xx body is returned, an error body is returned as a normal result, and
a transport failure throws `API request failed: <message>`. -/
def handleHttpOutcome {α : Type} : HttpOutcome α → Except String α
  | HttpOutcome.success b => Except.ok b
  | HttpOutcome.httpErrorWithBody b => Except.ok b
  | HttpOutcome.transportFailure msg => Except.error ("API request failed: " ++ msg)

/-- A list starts with itself. -/
theorem charsStartsWith_refl (l : List Char) : charsStartsWith l l = true := by
  induction l with
  | nil => rfl
  | cons a as ih => simp [charsStartsWith, ih]

/-- Any list contains its own suffix. -/
theorem charsContains_suffix (pre sub : List Char) :
    charsContains (pre ++ sub) sub = true := by
  induction pre with
  | nil =>
    cases sub with
    | nil => rfl
    | cons b bs => simp [charsContains, charsStartsWith_refl]
  | cons a pre ih => simp [charsContains, ih]

/-- Appending a message to a fixed text yields a string that `includes`
the message. -/
theorem strIncludes_append_self (pre m : String) : strIncludes (pre ++ m) m = true := by
  have h : (pre ++ m).toList = pre.toList ++ m.toList := by
    cases pre
    cases m
    rfl
  simp only [strIncludes, h]
  exact charsContains_suffix pre.toList m.toList

/-- A sample product matching the code filter `"abc"`. -/
def widgetProduct : SiigoProduct :=
  { code := some "ABC-1", name := some "Widget" }

/-- A sample product not matching the code filter `"abc"`. -/
def otherProduct : SiigoProduct :=
  { code := some "XYZ", name := some "Other" }

/-- A fetched product page with two results. -/
def productRespEx : SiigoApiResponse SiigoProduct :=
  { results := some [widgetProduct, otherProduct], pagination := some ⟨1, 25, 2⟩ }

/-- A customer whose `name` array matches `"acme"`. -/
def cAcmeCorp : SiigoCustomer :=
  { identification := some "900111", name := some ["Acme", "Corp"] }

/-- A customer with no `name` field whose commercial name matches
`"acme"`. -/
def cCommOnly : SiigoCustomer :=
  { identification := some "800222", commercial_name := some "ACME S.A." }

/-- A customer matching neither filter. -/
def cOtherCust : SiigoCustomer :=
  { identification := some "700333", name := some ["Beta LLC"] }

/-- A fetched customer page with three results. -/
def customerRespEx : SiigoApiResponse SiigoCustomer :=
  { results := some [cAcmeCorp, cCommOnly, cOtherCust], pagination := some ⟨1, 25, 3⟩ }

/-- A customer whose `name` array is present but does not match `"acme"`,
while its commercial name does. -/
def shadowedCustomer : SiigoCustomer :=
  { identification := some "900123", name := some ["Foo", "Bar"],
    commercial_name := some "ACME S.A." }

/-- A fetched customer page containing only `shadowedCustomer`. -/
def shadowedResp : SiigoApiResponse SiigoCustomer :=
  { results := some [shadowedCustomer], pagination := some ⟨1, 25, 1⟩ }

/-- A sample token-exchange response with a one-day lifetime. -/
def tokenRespEx : SiigoToken :=
  { access_token := "tok-abc", expires_in := 86400 }

/-- A two-operation trace: the first call exchanges a fresh credential,
the second reuses it from the cache. -/
def opStepsEx : List OperationStep :=
  [{ now := 0, tokenResp := tokenRespEx, method := "GET", endpoint := "/v1/products" },
   { now := 1000, tokenResp := tokenRespEx, method := "GET", endpoint := "/v1/invoices" }]

/-- C2: for every operation through `makeRequest`, if a cached credential
exists (non-empty token with a recorded expiry) and the current instant is
strictly before that expiry, no credential-exchange call occurs before the
resource call; otherwise exactly one credential-exchange call precedes the
resource call. -/
theorem makeRequest_auth_exchange_discipline
    (now : Nat) (tok : SiigoToken) (st : ClientState) (method endpoint : String) :
    (∀ t e, st.token = some t → ¬(t = "") → st.tokenExpiry = some e → now < e →
      (makeRequestCalls now tok st method endpoint).2 = [ApiCall.resource method endpoint]) ∧
    ((∀ t e, st.token = some t → st.tokenExpiry = some e → t = "" ∨ e ≤ now) →
      (makeRequestCalls now tok st method endpoint).2 =
        [ApiCall.authExchange, ApiCall.resource method endpoint]) := by
  constructor
  · intro t e ht hne hte hlt
    have hv : cachedTokenValid now st = true := by
      simp [cachedTokenValid, ht, hte, hne, hlt]
    simp [makeRequestCalls, authenticate, hv]
  · intro h
    have hv : cachedTokenValid now st = false := by
      rcases ht : st.token with _ | t <;> rcases hte : st.tokenExpiry with _ | e <;>
        simp [cachedTokenValid, ht, hte]
      rcases h t e ht hte with h1 | h1
      · intro hne
        exact absurd h1 hne
      · intro hne
        omega
    simp [makeRequestCalls, authenticate, hv]

/-- Witness for `makeRequest_auth_exchange_discipline`: at instant 5 a
cached credential expiring at 10 is reused with no exchange; at instant 20
the same cache forces exactly one exchange before the resource call. -/
theorem makeRequest_auth_exchange_discipline_witness :
    (makeRequestCalls 5 tokenRespEx { token := some "cached", tokenExpiry := some 10 }
        "GET" "/v1/products").2 = [ApiCall.resource "GET" "/v1/products"] ∧
    (makeRequestCalls 20 tokenRespEx { token := some "cached", tokenExpiry := some 10 }
        "GET" "/v1/products").2 =
      [ApiCall.authExchange, ApiCall.resource "GET" "/v1/products"] := by
  constructor
  · exact (makeRequest_auth_exchange_discipline 5 tokenRespEx
      { token := some "cached", tokenExpiry := some 10 } "GET" "/v1/products").1
      "cached" 10 rfl (by decide) rfl (by decide)
  · refine (makeRequest_auth_exchange_discipline 20 tokenRespEx
      { token := some "cached", tokenExpiry := some 10 } "GET" "/v1/products").2 ?_
    intro t e ht hte
    injection ht with h1
    injection hte with h2
    subst h1
    subst h2
    exact Or.inr (by omega)

/-- C3: in `makeRequest`, a non-2xx upstream response carrying an error
body is returned as a normal (non-throwing) result, hence with its
structured error codes preserved; a transport-level failure with no
response body throws an error whose message contains the underlying
failure message. -/
theorem makeRequest_error_semantics {α : Type} (body : SiigoApiResponse α) (msg : String) :
    handleHttpOutcome (HttpOutcome.httpErrorWithBody body) = Except.ok body ∧
    handleHttpOutcome (HttpOutcome.transportFailure msg : HttpOutcome (SiigoApiResponse α)) =
      Except.error ("API request failed: " ++ msg) ∧
    strIncludes ("API request failed: " ++ msg) msg = true :=
  ⟨rfl, rfl, strIncludes_append_self "API request failed: " msg⟩

/-- C9: `getTrialBalance` and `getTrialBalanceByThird` always issue POST
requests (not GET) to `/v1/test-balance-report` and
`/v1/test-balance-report-by-thirdparty`, with the supplied parameters as
the JSON body. -/
theorem trial_balance_reports_use_post
    (p : SiigoTrialBalanceParams) (q : SiigoTrialBalanceByThirdParams) :
    (getTrialBalance p).method = "POST" ∧
    ¬((getTrialBalance p).method = "GET") ∧
    (getTrialBalance p).endpoint = "/v1/test-balance-report" ∧
    (getTrialBalance p).data = some p ∧
    (getTrialBalanceByThird q).method = "POST" ∧
    ¬((getTrialBalanceByThird q).method = "GET") ∧
    (getTrialBalanceByThird q).endpoint = "/v1/test-balance-report-by-thirdparty" ∧
    (getTrialBalanceByThird q).data = some q := by
  refine ⟨rfl, ?_, rfl, rfl, rfl, ?_, rfl, rfl⟩ <;>
    exact (fun h => by simp [getTrialBalance, getTrialBalanceByThird] at h)

/-- C5: `searchProducts` called with only a code filter returns exactly
the fetched elements whose code, lower-cased, contains the lower-cased
filter substring, and recomputes `pagination.total_results` to the length
of that filtered list. -/
theorem searchProducts_code_filter_exact
    (sp : ProductSearchParams) (resp : SiigoApiResponse SiigoProduct) (l : List SiigoProduct)
    (hcode : optStrActive sp.code = true)
    (hname : optStrActive sp.name = false)
    (href : optStrActive sp.reference = false)
    (hres : resp.results = some l) :
    (searchProducts sp resp).results =
      some (l.filter (productCodeMatches (strLower (sp.code.getD "")))) ∧
    (searchProducts sp resp).pagination =
      resp.pagination.map (fun pg =>
        { pg with total_results :=
            (l.filter (productCodeMatches (strLower (sp.code.getD "")))).length }) := by
  have hf : applyProductFilters sp l =
      l.filter (productCodeMatches (strLower (sp.code.getD ""))) := by
    simp [applyProductFilters, hcode, hname, href]
  constructor <;> simp [searchProducts, hcode, hname, href, hres, hf]

/-- Witness for `searchProducts_code_filter_exact` at the filter `"abc"`
on a concrete two-product page. -/
theorem searchProducts_code_filter_exact_witness :
    (searchProducts { code := some "abc" } productRespEx).results =
      some ([widgetProduct, otherProduct].filter
        (productCodeMatches (strLower (({ code := some "abc" } : ProductSearchParams).code.getD "")))) ∧
    (searchProducts { code := some "abc" } productRespEx).pagination =
      productRespEx.pagination.map (fun pg =>
        { pg with total_results :=
            ([widgetProduct, otherProduct].filter
              (productCodeMatches (strLower (({ code := some "abc" } : ProductSearchParams).code.getD "")))).length }) :=
  searchProducts_code_filter_exact { code := some "abc" } productRespEx
    [widgetProduct, otherProduct] (by decide) (by decide) (by decide) rfl

/-- C6: `searchCustomers` called with both an identification filter and a
name filter returns exactly the fetched customers satisfying both
predicates, i.e. the intersection of the two individually filtered sets. -/
theorem searchCustomers_combined_filters_intersection
    (sp : CustomerSearchParams) (resp : SiigoApiResponse SiigoCustomer) (l : List SiigoCustomer)
    (hid : optStrActive sp.identification = true)
    (hname : optStrActive sp.name = true)
    (hres : resp.results = some l) :
    (searchCustomers sp resp).results =
      some (l.filter (fun c =>
        customerNameMatches (strLower (sp.name.getD "")) c &&
        customerIdMatches (strLower (sp.identification.getD "")) c)) ∧
    ∀ c : SiigoCustomer,
      c ∈ ((searchCustomers sp resp).results.getD []) ↔
        (c ∈ l.filter (customerIdMatches (strLower (sp.identification.getD ""))) ∧
         c ∈ l.filter (customerNameMatches (strLower (sp.name.getD "")))) := by
  have hf : applyCustomerFilters sp l =
      l.filter (fun c =>
        customerNameMatches (strLower (sp.name.getD "")) c &&
        customerIdMatches (strLower (sp.identification.getD "")) c) := by
    simp [applyCustomerFilters, hid, hname]
  have hr : (searchCustomers sp resp).results =
      some (l.filter (fun c =>
        customerNameMatches (strLower (sp.name.getD "")) c &&
        customerIdMatches (strLower (sp.identification.getD "")) c)) := by
    simp [searchCustomers, hid, hname, hres, hf]
  refine ⟨hr, fun c => ?_⟩
  rw [hr]
  simp only [Option.getD_some, List.mem_filter, Bool.and_eq_true]
  tauto

/-- Witness for `searchCustomers_combined_filters_intersection` with the
filters `identification = "900"` and `name = "acme"` on a concrete
three-customer page. -/
theorem searchCustomers_combined_filters_intersection_witness :
    (searchCustomers { identification := some "900", name := some "acme" } customerRespEx).results =
      some ([cAcmeCorp, cCommOnly, cOtherCust].filter (fun c =>
        customerNameMatches (strLower (({ identification := some "900", name := some "acme" } :
            CustomerSearchParams).name.getD "")) c &&
        customerIdMatches (strLower (({ identification := some "900", name := some "acme" } :
            CustomerSearchParams).identification.getD "")) c)) ∧
    (cAcmeCorp ∈ ((searchCustomers { identification := some "900", name := some "acme" }
        customerRespEx).results.getD []) ↔
      (cAcmeCorp ∈ [cAcmeCorp, cCommOnly, cOtherCust].filter
          (customerIdMatches (strLower (({ identification := some "900", name := some "acme" } :
            CustomerSearchParams).identification.getD ""))) ∧
       cAcmeCorp ∈ [cAcmeCorp, cCommOnly, cOtherCust].filter
          (customerNameMatches (strLower (({ identification := some "900", name := some "acme" } :
            CustomerSearchParams).name.getD ""))))) :=
  ⟨(searchCustomers_combined_filters_intersection
      { identification := some "900", name := some "acme" } customerRespEx
      [cAcmeCorp, cCommOnly, cOtherCust] (by decide) (by decide) rfl).1,
   (searchCustomers_combined_filters_intersection
      { identification := some "900", name := some "acme" } customerRespEx
      [cAcmeCorp, cCommOnly, cOtherCust] (by decide) (by decide) rfl).2 cAcmeCorp⟩

/-- C7: `searchProducts` and `searchCustomers` with no text filter
supplied return the fetched envelope entirely unchanged, pagination
included. -/
theorem search_no_text_filter_passthrough :
    (∀ (sp : ProductSearchParams) (resp : SiigoApiResponse SiigoProduct),
      sp.code = none → sp.name = none → sp.reference = none →
      searchProducts sp resp = resp) ∧
    (∀ (sp : CustomerSearchParams) (resp : SiigoApiResponse SiigoCustomer),
      sp.identification = none → sp.name = none →
      searchCustomers sp resp = resp) := by
  constructor
  · intro sp resp h1 h2 h3
    simp [searchProducts, h1, h2, h3, optStrActive]
  · intro sp resp h1 h2
    simp [searchCustomers, h1, h2, optStrActive]

/-- Witness for `search_no_text_filter_passthrough`: concrete
pagination-only searches return the fetched envelopes unchanged. -/
theorem search_no_text_filter_passthrough_witness :
    searchProducts { page := some 2 } productRespEx = productRespEx ∧
    searchCustomers { page := some 2 } customerRespEx = customerRespEx :=
  ⟨search_no_text_filter_passthrough.1 { page := some 2 } productRespEx rfl rfl rfl,
   search_no_text_filter_passthrough.2 { page := some 2 } customerRespEx rfl rfl⟩

/-- C8: when a text filter is applied to a fetched result list, only
`pagination.total_results` changes (to the filtered count): `page` and
`page_size` are preserved, and the envelope's `data`, `links`, `errors`
and `Status` fields are returned unchanged. -/
theorem search_text_filter_frame :
    (∀ (sp : ProductSearchParams) (resp : SiigoApiResponse SiigoProduct)
        (l : List SiigoProduct),
      (optStrActive sp.code || optStrActive sp.name || optStrActive sp.reference) = true →
      resp.results = some l →
      (searchProducts sp resp).data = resp.data ∧
      (searchProducts sp resp).links = resp.links ∧
      (searchProducts sp resp).errors = resp.errors ∧
      (searchProducts sp resp).Status = resp.Status ∧
      ∃ rs : List SiigoProduct,
        (searchProducts sp resp).results = some rs ∧
        (searchProducts sp resp).pagination =
          resp.pagination.map (fun pg => { pg with total_results := rs.length })) ∧
    (∀ (sp : CustomerSearchParams) (resp : SiigoApiResponse SiigoCustomer)
        (l : List SiigoCustomer),
      (optStrActive sp.identification || optStrActive sp.name) = true →
      resp.results = some l →
      (searchCustomers sp resp).data = resp.data ∧
      (searchCustomers sp resp).links = resp.links ∧
      (searchCustomers sp resp).errors = resp.errors ∧
      (searchCustomers sp resp).Status = resp.Status ∧
      ∃ rs : List SiigoCustomer,
        (searchCustomers sp resp).results = some rs ∧
        (searchCustomers sp resp).pagination =
          resp.pagination.map (fun pg => { pg with total_results := rs.length })) := by
  constructor
  · intro sp resp l hact hres
    have hcp : ¬((!(optStrActive sp.code) && !(optStrActive sp.name) &&
        !(optStrActive sp.reference)) = true) := by
      revert hact
      cases optStrActive sp.code <;> cases optStrActive sp.name <;>
        cases optStrActive sp.reference <;> simp
    have hs : searchProducts sp resp =
        { resp with
          results := some (applyProductFilters sp l),
          pagination := resp.pagination.map
            (fun pg => { pg with total_results := (applyProductFilters sp l).length }) } := by
      unfold searchProducts
      rw [if_neg hcp, hres]
    rw [hs]
    exact ⟨rfl, rfl, rfl, rfl, applyProductFilters sp l, rfl, rfl⟩
  · intro sp resp l hact hres
    have hcp : ¬((!(optStrActive sp.identification) && !(optStrActive sp.name)) = true) := by
      revert hact
      cases optStrActive sp.identification <;> cases optStrActive sp.name <;> simp
    have hs : searchCustomers sp resp =
        { resp with
          results := some (applyCustomerFilters sp l),
          pagination := resp.pagination.map
            (fun pg => { pg with total_results := (applyCustomerFilters sp l).length }) } := by
      unfold searchCustomers
      rw [if_neg hcp, hres]
    rw [hs]
    exact ⟨rfl, rfl, rfl, rfl, applyCustomerFilters sp l, rfl, rfl⟩

/-- Witness for `search_text_filter_frame` on concrete filtered searches:
the non-results fields come back unchanged. -/
theorem search_text_filter_frame_witness :
    (searchProducts { name := some "widget" } productRespEx).data = productRespEx.data ∧
    (searchProducts { name := some "widget" } productRespEx).Status = productRespEx.Status ∧
    (searchCustomers { identification := some "900" } customerRespEx).errors =
      customerRespEx.errors := by
  have hp := search_text_filter_frame.1 { name := some "widget" } productRespEx
    [widgetProduct, otherProduct] (by decide) rfl
  have hc := search_text_filter_frame.2 { identification := some "900" } customerRespEx
    [cAcmeCorp, cCommOnly, cOtherCust] (by decide) rfl
  exact ⟨hp.1, hp.2.2.2.1, hc.2.2.1⟩

/-- C10: a `page` or `page_size` argument equal to 0 is not forwarded as
a server-side query parameter, and a text filter equal to the empty
string is treated as no filter at all: if every text filter is absent or
empty, the fetched envelope is returned unchanged. -/
theorem search_param_shaping_truthiness :
    (∀ sp : ProductSearchParams, sp.page = some 0 →
      ¬("page" ∈ (productQueryParams sp).map Prod.fst)) ∧
    (∀ sp : ProductSearchParams, sp.page_size = some 0 →
      ¬("page_size" ∈ (productQueryParams sp).map Prod.fst)) ∧
    (∀ sp : CustomerSearchParams, sp.page = some 0 →
      ¬("page" ∈ (customerQueryParams sp).map Prod.fst)) ∧
    (∀ sp : CustomerSearchParams, sp.page_size = some 0 →
      ¬("page_size" ∈ (customerQueryParams sp).map Prod.fst)) ∧
    (∀ (sp : ProductSearchParams) (resp : SiigoApiResponse SiigoProduct),
      (sp.code = none ∨ sp.code = some "") →
      (sp.name = none ∨ sp.name = some "") →
      (sp.reference = none ∨ sp.reference = some "") →
      searchProducts sp resp = resp) ∧
    (∀ (sp : CustomerSearchParams) (resp : SiigoApiResponse SiigoCustomer),
      (sp.identification = none ∨ sp.identification = some "") →
      (sp.name = none ∨ sp.name = some "") →
      searchCustomers sp resp = resp) := by
  refine ⟨?_, ?_, ?_, ?_, ?_, ?_⟩
  · intro sp h
    cases hps : optNatActive sp.page_size <;>
      simp [productQueryParams, h, hps, optNatActive]
  · intro sp h
    cases hp : optNatActive sp.page <;>
      simp [productQueryParams, h, hp, optNatActive]
  · intro sp h
    cases hps : optNatActive sp.page_size <;> cases hty : optStrActive sp.type <;>
      simp [customerQueryParams, h, hps, hty, optNatActive]
  · intro sp h
    cases hp : optNatActive sp.page <;> cases hty : optStrActive sp.type <;>
      simp [customerQueryParams, h, hp, hty, optNatActive]
  · intro sp resp h1 h2 h3
    rcases h1 with h1 | h1 <;> rcases h2 with h2 | h2 <;> rcases h3 with h3 | h3 <;>
      simp [searchProducts, h1, h2, h3, optStrActive]
  · intro sp resp h1 h2
    rcases h1 with h1 | h1 <;> rcases h2 with h2 | h2 <;>
      simp [searchCustomers, h1, h2, optStrActive]

/-- Witness for `search_param_shaping_truthiness` on concrete argument
records with zero pagination values and empty-string filters. -/
theorem search_param_shaping_truthiness_witness :
    ¬("page" ∈ (productQueryParams { page := some 0, page_size := some 50 }).map Prod.fst) ∧
    ¬("page_size" ∈ (customerQueryParams
        { page_size := some 0, type := some "Customer" }).map Prod.fst) ∧
    searchProducts { code := some "", page := some 3 } productRespEx = productRespEx ∧
    searchCustomers { name := some "" } customerRespEx = customerRespEx :=
  ⟨search_param_shaping_truthiness.1 { page := some 0, page_size := some 50 } rfl,
   search_param_shaping_truthiness.2.2.2.1 { page_size := some 0, type := some "Customer" } rfl,
   search_param_shaping_truthiness.2.2.2.2.1 { code := some "", page := some 3 } productRespEx
     (Or.inr rfl) (Or.inl rfl) (Or.inl rfl),
   search_param_shaping_truthiness.2.2.2.2.2 { name := some "" } customerRespEx
     (Or.inl rfl) (Or.inr rfl)⟩

/-- C1 counterexample: with the name filter `"acme"`, a fetched customer
whose `name` array is present but does not match is dropped even though
its lower-cased `commercial_name` contains the lower-cased filter, because
the source consults `commercial_name` only when the `name` field is
absent. -/
theorem searchCustomers_commercial_name_shadowed :
    strIncludes (strLower "ACME S.A.") (strLower "acme") = true ∧
    (shadowedCustomer.name.getD []).all
      (fun part => !(strIncludes (strLower part) (strLower "acme"))) = true ∧
    shadowedCustomer.commercial_name = some "ACME S.A." ∧
    (searchCustomers { name := some "acme" } shadowedResp).results = some [] := by
  decide

/-- C1 amended: with a name filter and no identification filter, a fetched
customer is kept iff: when its `name` field is present, some lower-cased
name part contains the lower-cased filter; when the `name` field is absent
and a non-empty `commercial_name` is present, its lower-cased value
contains the filter; otherwise it is dropped.  The commercial name is
consulted only when the `name` field is absent, not when the name match
merely fails. -/
theorem searchCustomers_name_filter_kept_iff
    (sp : CustomerSearchParams) (resp : SiigoApiResponse SiigoCustomer)
    (l : List SiigoCustomer)
    (hname : optStrActive sp.name = true)
    (hid : optStrActive sp.identification = false)
    (hres : resp.results = some l) (c : SiigoCustomer) :
    c ∈ ((searchCustomers sp resp).results.getD []) ↔
      (c ∈ l ∧
        (match c.name, c.commercial_name with
         | some parts, _ => ∃ part ∈ parts,
             strIncludes (strLower part) (strLower (sp.name.getD "")) = true
         | none, some cn => ¬(cn = "") ∧
             strIncludes (strLower cn) (strLower (sp.name.getD "")) = true
         | none, none => False)) := by
  have hf : applyCustomerFilters sp l =
      l.filter (customerNameMatches (strLower (sp.name.getD ""))) := by
    simp [applyCustomerFilters, hname, hid]
  have hr : (searchCustomers sp resp).results =
      some (l.filter (customerNameMatches (strLower (sp.name.getD "")))) := by
    simp [searchCustomers, hname, hid, hres, hf]
  rw [hr]
  simp only [Option.getD_some, List.mem_filter]
  refine and_congr_right fun _ => ?_
  rcases hcn : c.name with _ | parts
  · rcases hcc : c.commercial_name with _ | cn
    · simp [customerNameMatches, hcn, hcc]
    · rcases eq_or_ne cn "" with he | he
      · subst he
        simp [customerNameMatches, hcn, hcc]
      · simp [customerNameMatches, hcn, hcc, he]
  · simp [customerNameMatches, hcn, List.any_eq_true]

/-- Witness for `searchCustomers_name_filter_kept_iff`: the customer with
no `name` field and commercial name `"ACME S.A."` is kept by the filter
`"acme"` on a concrete three-customer page. -/
theorem searchCustomers_name_filter_kept_iff_witness :
    cCommOnly ∈ ((searchCustomers { name := some "acme" } customerRespEx).results.getD []) ↔
      (cCommOnly ∈ [cAcmeCorp, cCommOnly, cOtherCust] ∧
        (¬("ACME S.A." = "") ∧
          strIncludes (strLower "ACME S.A.") (strLower "acme") = true)) :=
  searchCustomers_name_filter_kept_iff { name := some "acme" } customerRespEx
    [cAcmeCorp, cCommOnly, cOtherCust] (by decide) (by decide) rfl cCommOnly

/-- Every bearer attachment in a trace happens no later than its recorded
expiry; a cache-reusing attachment is strictly before expiry, and so is
every attachment when all token lifetimes are positive. -/
theorem runOperations_attachment_bound (st : ClientState) (steps : List OperationStep) :
    ∀ a ∈ runOperations st steps,
      a.now ≤ a.expiry ∧
      (a.reusedCache = true → a.now < a.expiry) ∧
      ((∀ s ∈ steps, 0 < s.tokenResp.expires_in) → a.now < a.expiry) := by
  induction steps generalizing st with
  | nil =>
    intro a ha
    simp [runOperations] at ha
  | cons s rest ih =>
    intro a ha
    by_cases h : cachedTokenValid s.now st = true
    · simp [runOperations, authenticate, h] at ha
      rcases ha with rfl | ha
      · rcases ht : st.token with _ | t <;> rcases hte : st.tokenExpiry with _ | e <;>
          simp [cachedTokenValid, ht, hte] at h
        refine ⟨?_, fun _ => ?_, fun _ => ?_⟩ <;> simp [hte] <;> omega
      · have hrest := ih st a ha
        exact ⟨hrest.1, hrest.2.1,
          fun hall => hrest.2.2 (fun q hq => hall q (List.mem_cons_of_mem _ hq))⟩
    · have hf : cachedTokenValid s.now st = false := by
        revert h
        cases cachedTokenValid s.now st <;> simp
      simp [runOperations, authenticate, hf] at ha
      rcases ha with rfl | ha
      · refine ⟨by simp, fun hreuse => by simp at hreuse, fun hall => ?_⟩
        have hpos := hall s (List.mem_cons_self s rest)
        simp
        omega
      · have hrest := ih _ a ha
        exact ⟨hrest.1, hrest.2.1,
          fun hall => hrest.2.2 (fun q hq => hall q (List.mem_cons_of_mem _ hq))⟩

/-- C4 counterexample: a token-exchange response with a zero lifetime
yields a cached credential attached to the outgoing resource request at
exactly its recorded expiry instant, not strictly before it. -/
theorem bearer_attached_at_its_expiry_instant :
    runOperations initialClientState
        [{ now := 0, tokenResp := { access_token := "tok", expires_in := 0 },
           method := "GET", endpoint := "/v1/products" }] =
      [{ now := 0, expiry := 0, reusedCache := false }] ∧
    ¬((0 : Nat) < 0) := by
  decide

/-- C4 amended: the cache holds a single credential, and a bearer is never
attached to an outgoing request strictly past its recorded expiry: every
attachment instant is at most the expiry, an attachment reusing the cached
credential is strictly before expiry, and when every token-exchange
response carries a positive lifetime every attachment is strictly before
expiry. -/
theorem bearer_attachment_never_past_expiry
    (steps : List OperationStep) (a : BearerAttachment)
    (ha : a ∈ runOperations initialClientState steps) :
    a.now ≤ a.expiry ∧
    (a.reusedCache = true → a.now < a.expiry) ∧
    ((∀ s ∈ steps, 0 < s.tokenResp.expires_in) → a.now < a.expiry) :=
  runOperations_attachment_bound initialClientState steps a ha

/-- Witness for `bearer_attachment_never_past_expiry`: in the concrete
two-step trace the second request reuses the cached credential strictly
before its expiry. -/
theorem bearer_attachment_never_past_expiry_witness :
    (⟨1000, 86400000, true⟩ : BearerAttachment) ∈
      runOperations initialClientState opStepsEx ∧
    (1000 : Nat) < 86400000 := by
  refine ⟨by decide, ?_⟩
  exact (bearer_attachment_never_past_expiry opStepsEx ⟨1000, 86400000, true⟩ (by decide)).2.1 rfl

end Siigo
